import Mathlib

/-!
Verification of the MQTT endpoint session handler
(src/mqtt-endpoint/src/service/session/mod.rs) of drogue-cloud.

The session state (authorization cache, inbox subscription registry) is
embedded with explicit state passing.  External collaborators (the device
authorizer and the downstream sender) are parameters of the operations,
so that theorems can quantify over their behaviour.
-/

namespace DrogueSession

/-- Splitting a string on the slash character, as done by the Rust
str split method with a single-character separator: every slash is a
separator, empty segments are kept, and the empty string yields one
empty segment. -/
def splitSlashAux : List Char → List Char → List String
  | [], acc => [String.mk acc.reverse]
  | c :: rest, acc =>
    if c = '/' then String.mk acc.reverse :: splitSlashAux rest []
    else splitSlashAux rest (c :: acc)

/-- The topic of a publish or subscribe request, split on the slash
character (publish.topic().path().split(given slash) in the source). -/
def splitTopic (s : String) : List String :=
  splitSlashAux s.data []

/-- A registry device (registry::v1::Device); only its metadata name is
relevant to the session logic. -/
structure Device where
  name : String
deriving DecidableEq, Repr

/-- A registry application (registry::v1::Application); only its metadata
name is relevant to the session logic. -/
structure Application where
  name : String
deriving DecidableEq, Repr

/-- A cached authorization decision (struct DeviceCacheEntry): some device
for a grant, none for a denial. -/
structure DeviceCacheEntry where
  device : Option Device
deriving DecidableEq, Repr

/-- Modelled from the spec: the bounded least-recently-used cache of the
clru crate used for the device cache; the crate itself is not part of the
sources.  Entries are kept most-recently-used first. -/
structure CLruCache (β : Type) where
  capacity : Nat
  entries : List (String × β)
deriving DecidableEq, Repr

/-- Lookup of a key in the entry list of the cache. -/
def cacheLookup {β : Type} : List (String × β) → String → Option β
  | [], _ => none
  | (k, v) :: rest, key => if k = key then some v else cacheLookup rest key

/-- Removal of the first occurrence of a key from the entry list. -/
def cacheRemove {β : Type} : List (String × β) → String → List (String × β)
  | [], _ => []
  | (k, v) :: rest, key =>
    if k = key then rest else (k, v) :: cacheRemove rest key

/-- Modelled from the spec: clru cache get.  On a hit the entry is promoted
to most-recently-used and its value returned; a miss leaves the cache
unchanged. -/
def CLruCache.get {β : Type} (c : CLruCache β) (key : String) :
    Option β × CLruCache β :=
  match cacheLookup c.entries key with
  | some v => (some v, { c with entries := (key, v) :: cacheRemove c.entries key })
  | none => (none, c)

/-- Modelled from the spec: clru cache put.  The pair becomes
most-recently-used; when the capacity is exceeded the least-recently-used
entry is evicted. -/
def CLruCache.put {β : Type} (c : CLruCache β) (key : String) (v : β) :
    CLruCache β :=
  { c with entries :=
      if c.capacity < ((key, v) :: cacheRemove c.entries key).length then
        ((key, v) :: cacheRemove c.entries key).dropLast
      else (key, v) :: cacheRemove c.entries key }

/-- Modelled from the spec: outcome of the external authorizer
(GatewayOutcome): a pass carrying the granted device, or any other
(non-pass) definitive outcome. -/
inductive GatewayOutcome where
  | pass (granted : Device)
  | other
deriving DecidableEq, Repr

/-- The typed publish failures used by the session (PublishError). -/
inductive PublishError where
  | TopicNameInvalid
  | NotAuthorized
  | UnspecifiedError
  | QuotaExceeded
  | InternalError (detail : String)
deriving DecidableEq, Repr

/-- Modelled from the spec: the external authorizer collaborator,
authorize_as(application name, authenticated device name, proxied device
name), returning a definitive outcome or failing. -/
def Authorizer : Type :=
  String → String → String → Except String GatewayOutcome

/-- Modelled from the spec: the closed set of command filters
(CommandFilter): wildcard, device-scoped, proxied-device-scoped. -/
inductive CommandFilter where
  | wildcard (app device : String)
  | device (app device : String)
  | proxied_device (app device name : String)
deriving DecidableEq, Repr

/-- Modelled from the spec: a command relay (InboxSubscription of the
inbox module, not part of the sources): a live task bound to a filter and
a force flag; close awaits its shutdown, after which it no longer runs. -/
structure InboxSubscription where
  filter : CommandFilter
  force_device : Bool
  running : Bool
deriving DecidableEq, Repr

/-- Modelled from the spec: InboxSubscription construction
(InboxSubscription new): the relay starts running. -/
def InboxSubscription.new (filter : CommandFilter) (force_device : Bool) :
    InboxSubscription :=
  { filter := filter, force_device := force_device, running := true }

/-- Modelled from the spec: InboxSubscription close: graceful shutdown is
awaited, after which the relay is stopped. -/
def InboxSubscription.close (sub : InboxSubscription) : InboxSubscription :=
  { sub with running := false }

/-- The composite session identifier (Id): application name and device
name. -/
structure SessionId where
  app_id : String
  device_id : String
deriving DecidableEq, Repr

/-- The per-connection session state (struct Session): the authenticated
application and device, the inbox subscription registry and the device
authorization cache.  Collaborator handles (authorizer, sender, sink,
commands) are passed to the operations instead of being stored. -/
structure Session where
  application : Application
  device : Device
  inbox_reader : List (String × InboxSubscription)
  device_cache : CLruCache DeviceCacheEntry
  id : SessionId
deriving DecidableEq, Repr

/-- Session construction (Session::new): empty registry, empty device
cache of capacity 128, identifier built from the application and device
names. -/
def Session.new (application : Application) (device : Device) : Session :=
  { application := application
    device := device
    inbox_reader := []
    device_cache := { capacity := 128, entries := [] }
    id := { app_id := application.name, device_id := device.name } }

/-- Lookup in the inbox subscription registry (HashMap entry inspection). -/
def lookupReg : List (String × InboxSubscription) → String →
    Option InboxSubscription
  | [], _ => none
  | (k, v) :: rest, key => if k = key then some v else lookupReg rest key

/-- Removal from the inbox subscription registry (HashMap remove),
returning the removed subscription and the remaining registry when the
key is present. -/
def removeReg : List (String × InboxSubscription) → String →
    Option (InboxSubscription × List (String × InboxSubscription))
  | [], _ => none
  | (k, v) :: rest, key =>
    if k = key then some (v, rest)
    else match removeReg rest key with
      | some (sub, rest2) => some (sub, (k, v) :: rest2)
      | none => none

/-- subscribe_inbox: under the registry guard, a no-op when the filter key
is already occupied, otherwise a new relay is constructed and inserted. -/
def subscribe_inbox (s : Session) (topic_filter : String)
    (filter : CommandFilter) (force_device : Bool) : Session :=
  match lookupReg s.inbox_reader topic_filter with
  | some _ => s
  | none =>
    { s with inbox_reader :=
        (topic_filter, InboxSubscription.new filter force_device) ::
          s.inbox_reader }

/-- eval_device: resolve the acting device for a publish topic.  One
segment publishes as the authenticated device; two segments resolve the
second segment through the device cache, falling back to the external
authorizer on a miss; anything else is an invalid topic name. -/
def eval_device (auth : Authorizer) (s : Session) (topic : String) :
    Except PublishError (String × Device) × CLruCache DeviceCacheEntry :=
  match splitTopic topic with
  | [channel] => (.ok (channel, s.device), s.device_cache)
  | [channel, as_device] =>
    match s.device_cache.get as_device with
    | (some outcome, cache) =>
      match outcome.device with
      | some granted => (.ok (channel, granted), cache)
      | none => (.error .NotAuthorized, cache)
    | (none, cache) =>
      match auth s.application.name s.device.name as_device with
      | .error _ =>
        (.error (.InternalError "Failed to authorize device"), cache)
      | .ok outcome =>
        let entry : DeviceCacheEntry :=
          match outcome with
          | .pass granted => { device := some granted }
          | .other => { device := none }
        let cache := cache.put as_device entry
        match entry.device with
        | some granted => (.ok (channel, granted), cache)
        | none => (.error .NotAuthorized, cache)
  | _ => (.error .TopicNameInvalid, s.device_cache)

/-- Modelled from the spec: the tri-state downstream bus outcome
(PublishOutcome). -/
inductive PublishOutcome where
  | Accepted
  | Rejected
  | QueueFull
deriving DecidableEq, Repr

/-- The record handed to the downstream sender (sender::Publish). -/
structure SenderPublish where
  channel : String
  application : Application
  device_id : String
  sender_id : String
  content_type : Option String
deriving DecidableEq, Repr

/-- Modelled from the spec: the downstream sender collaborator, taking the
publish record and the raw payload and returning an outcome or a
transport error. -/
def SenderFn : Type :=
  SenderPublish → List Nat → Except String PublishOutcome

/-- Protocol-level properties of a publish message; only the declared
content type is used. -/
structure PubProperties where
  content_type : Option String
deriving DecidableEq, Repr

/-- An incoming publish message: topic path, optional properties, raw
payload. -/
structure PublishMsg where
  topic : String
  properties : Option PubProperties
  payload : List Nat
deriving DecidableEq, Repr

/-- publish: extract the declared content type, resolve the acting device
via eval_device, forward to the downstream sender, and map the bus
outcome to the protocol result. -/
def Session.publish (sender : SenderFn) (auth : Authorizer) (s : Session)
    (p : PublishMsg) :
    Except PublishError Unit × CLruCache DeviceCacheEntry :=
  let content_type := p.properties.bind (fun pr => pr.content_type)
  match eval_device auth s p.topic with
  | (.error e, cache) => (.error e, cache)
  | (.ok (channel, device), cache) =>
    match sender
        { channel := channel
          application := s.application
          device_id := device.name
          sender_id := s.device.name
          content_type := content_type } p.payload with
    | .ok .Accepted => (.ok (), cache)
    | .ok .Rejected => (.error .UnspecifiedError, cache)
    | .ok .QueueFull => (.error .QuotaExceeded, cache)
    | .error err => (.error (.InternalError err), cache)

/-- Modelled from the spec: the protocol quality-of-service levels;
AtMostOnce is the lowest. -/
inductive QoS where
  | AtMostOnce
  | AtLeastOnce
  | ExactlyOnce
deriving DecidableEq, Repr

/-- The subscribe acknowledgement reasons produced by the session. -/
inductive SubscribeAckReason where
  | SubscriptionIdentifiersNotSupported
  | UnspecifiedError
deriving DecidableEq, Repr

/-- Per-entry subscribe acknowledgement: confirmed at a quality-of-service
level, or failed with a reason. -/
inductive SubAck where
  | confirm (q : QoS)
  | fail (r : SubscribeAckReason)
deriving DecidableEq, Repr

/-- The unsubscribe acknowledgement reasons produced by the session. -/
inductive UnsubscribeAckReason where
  | NoSubscriptionExisted
deriving DecidableEq, Repr

/-- Per-entry unsubscribe acknowledgement. -/
inductive UnsubAck where
  | success
  | fail (r : UnsubscribeAckReason)
deriving DecidableEq, Repr

/-- A subscribe request batch: an optional protocol-level subscription
identifier and the requested topics. -/
structure SubscribeBatch where
  id : Option Nat
  topics : List String
deriving DecidableEq, Repr

/-- Per-topic body of the subscribe loop: classify the topic, register the
matching inbox subscription and confirm, or fail with an unspecified
error. -/
def subscribeStep (s : Session) (topic : String) : SubAck × Session :=
  match splitTopic topic with
  | ["command", "inbox", "#"] | ["command", "inbox", "+", "#"] =>
    (.confirm .AtMostOnce,
      subscribe_inbox s topic
        (.wildcard s.id.app_id s.id.device_id) false)
  | ["command", "inbox", "", "#"] =>
    (.confirm .AtMostOnce,
      subscribe_inbox s topic
        (.device s.id.app_id s.id.device_id) false)
  | ["command", "inbox", dev, "#"] =>
    (.confirm .AtMostOnce,
      subscribe_inbox s topic
        (.proxied_device s.id.app_id s.id.device_id dev) true)
  | _ => (.fail .UnspecifiedError, s)

/-- subscribe: a batch carrying a subscription identifier fails every
entry; otherwise each topic is processed by the subscribe loop body in
order. -/
def Session.subscribe (s : Session) (batch : SubscribeBatch) :
    List SubAck × Session :=
  if batch.id.isSome then
    (batch.topics.map (fun _ =>
      .fail .SubscriptionIdentifiersNotSupported), s)
  else
    batch.topics.foldl
      (fun acc t =>
        let r := subscribeStep acc.2 t
        (acc.1 ++ [r.1], r.2))
      ([], s)

/-- Per-topic body of the unsubscribe loop: remove the registry entry if
present, await the relay shutdown and acknowledge success; otherwise
acknowledge that no subscription existed.  The closed relay, when any, is
returned as evidence of the awaited shutdown. -/
def unsubscribeStep (s : Session) (topic : String) :
    UnsubAck × Option InboxSubscription × Session :=
  match removeReg s.inbox_reader topic with
  | some (sub, rest) =>
    (.success, some sub.close, { s with inbox_reader := rest })
  | none => (.fail .NoSubscriptionExisted, none, s)

/-- unsubscribe: each topic of the batch is processed by the unsubscribe
loop body in order; the closed relays are collected. -/
def Session.unsubscribe (s : Session) (topics : List String) :
    List UnsubAck × List InboxSubscription × Session :=
  topics.foldl
    (fun acc t =>
      let r := unsubscribeStep acc.2.2 t
      (acc.1 ++ [r.1], acc.2.1 ++ r.2.1.toList, r.2.2))
    ([], [], s)

/-- closed: on session close the registry is drained and every relay is
closed; the closed relays are returned as evidence of the awaited
shutdowns. -/
def Session.closed (s : Session) : List InboxSubscription × Session :=
  (s.inbox_reader.map (fun p => p.2.close), { s with inbox_reader := [] })

/-- One publish-resolution step of a session: the device cache is updated
with the cache produced by eval_device. -/
def evalStep (s : Session) (call : Authorizer × String) : Session :=
  { s with device_cache := (eval_device call.1 s call.2).2 }

/-- A sequence of publish resolutions on a session. -/
def runPublishes (s : Session) (calls : List (Authorizer × String)) :
    Session :=
  calls.foldl evalStep s

/-- The record handed to the downstream sender by publish for a resolved
channel and acting device: the application, the acting device name as
device_id, the authenticated device name as sender_id, and the declared
content type of the message. -/
def senderArgs (s : Session) (p : PublishMsg) (channel : String)
    (dev : Device) : SenderPublish :=
  { channel := channel
    application := s.application
    device_id := dev.name
    sender_id := s.device.name
    content_type := p.properties.bind (fun pr => pr.content_type) }

/-- Example application used to evaluate the model on concrete inputs. -/
def appW : Application := { name := "a1" }

/-- Example authenticated device. -/
def devW : Device := { name := "d1" }

/-- Example proxied device. -/
def devW2 : Device := { name := "d2" }

/-- Example fresh session. -/
def sessionW : Session := Session.new appW devW

/-- Example authorizer granting every request as devW2. -/
def authPassW : Authorizer := fun _ _ _ => .ok (.pass devW2)

/-- Example authorizer denying every request. -/
def authDenyW : Authorizer := fun _ _ _ => .ok .other

/-- Example failing authorizer. -/
def authErrW : Authorizer := fun _ _ _ => .error "boom"

/-- Example downstream sender accepting every publish. -/
def senderAcceptW : SenderFn := fun _ _ => .ok .Accepted

/-- Example inbox subscription. -/
def subW : InboxSubscription :=
  InboxSubscription.new (.wildcard "a1" "d1") false

/-- Example session whose registry holds one subscription. -/
def sessionRegW : Session :=
  { sessionW with inbox_reader := [("command/inbox/#", subW)] }

/-- Example session whose device cache holds a grant for devW2. -/
def sessionHitW : Session :=
  { sessionW with device_cache :=
      { capacity := 128, entries := [("d2", { device := some devW2 })] } }

/-- Example device cache filled to its capacity of 128 entries. -/
def cacheFullW : CLruCache DeviceCacheEntry :=
  { capacity := 128
    entries := (List.range 128).map (fun i => (Nat.repr i, { device := none })) }

/-- Example publish message with a declared content type. -/
def publishW : PublishMsg :=
  { topic := "t"
    properties := some { content_type := some "text" }
    payload := [1, 2] }

/-- Example subscribe batch carrying a subscription identifier. -/
def batchW : SubscribeBatch :=
  { id := some 1, topics := ["command/inbox/#", "t"] }

theorem cacheLookup_none_remove {β : Type} (l : List (String × β))
    (k : String) (h : cacheLookup l k = none) : cacheRemove l k = l := by
  induction l with
  | nil => rfl
  | cons p rest ih =>
    obtain ⟨k0, v0⟩ := p
    by_cases hk : k0 = k
    · simp [cacheLookup, hk] at h
    · simp only [cacheLookup, hk, if_neg hk] at h
      simp [cacheRemove, hk, ih h]

theorem cacheRemove_length_le {β : Type} (l : List (String × β))
    (k : String) : (cacheRemove l k).length ≤ l.length := by
  induction l with
  | nil => simp [cacheRemove]
  | cons p rest ih =>
    obtain ⟨k0, v0⟩ := p
    by_cases hk : k0 = k
    · simp only [cacheRemove, if_pos hk, List.length_cons]
      omega
    · simp only [cacheRemove, if_neg hk, List.length_cons]
      omega

theorem cacheLookup_some_remove_length {β : Type} (l : List (String × β))
    (k : String) (v : β) (h : cacheLookup l k = some v) :
    (cacheRemove l k).length + 1 = l.length := by
  induction l with
  | nil => simp [cacheLookup] at h
  | cons p rest ih =>
    obtain ⟨k0, v0⟩ := p
    by_cases hk : k0 = k
    · simp [cacheRemove, hk]
    · simp only [cacheLookup, hk, if_neg hk] at h
      simp only [cacheRemove, if_neg hk, List.length_cons]
      have := ih h
      omega

theorem CLruCache.get_capacity {β : Type} (c : CLruCache β) (k : String) :
    (c.get k).2.capacity = c.capacity := by
  unfold CLruCache.get
  cases h : cacheLookup c.entries k <;> simp

theorem CLruCache.put_capacity {β : Type} (c : CLruCache β) (k : String)
    (v : β) : (c.put k v).capacity = c.capacity := by
  unfold CLruCache.put
  split <;> simp

theorem CLruCache.get_fst_none {β : Type} (c : CLruCache β) (k : String)
    (h : (c.get k).1 = none) : c.get k = (none, c) := by
  unfold CLruCache.get at h ⊢
  cases hl : cacheLookup c.entries k with
  | none => rfl
  | some v => rw [hl] at h; simp at h

theorem CLruCache.get_length_le {β : Type} (c : CLruCache β) (k : String)
    (h : c.entries.length ≤ c.capacity) :
    (c.get k).2.entries.length ≤ c.capacity := by
  unfold CLruCache.get
  cases hl : cacheLookup c.entries k with
  | none => simpa using h
  | some v =>
    have := cacheLookup_some_remove_length c.entries k v hl
    simp
    omega

theorem CLruCache.put_length_le {β : Type} (c : CLruCache β) (k : String)
    (v : β) (h : c.entries.length ≤ c.capacity) :
    (c.put k v).entries.length ≤ c.capacity := by
  have hrem := cacheRemove_length_le (β := β) c.entries k
  unfold CLruCache.put
  split
  next hlt =>
    rw [List.length_dropLast]
    simp only [List.length_cons] at hlt ⊢
    omega
  next hge =>
    simp only [List.length_cons] at hge ⊢
    omega

theorem eval_device_cache_inv (auth : Authorizer) (s : Session)
    (topic : String)
    (h : s.device_cache.entries.length ≤ s.device_cache.capacity) :
    (eval_device auth s topic).2.entries.length ≤
      (eval_device auth s topic).2.capacity ∧
    (eval_device auth s topic).2.capacity = s.device_cache.capacity := by
  unfold eval_device
  rcases hsp : splitTopic topic with _ | ⟨a, _ | ⟨b, _ | ⟨c, l⟩⟩⟩
  · exact ⟨h, rfl⟩
  · exact ⟨h, rfl⟩
  · dsimp only
    have hcap := CLruCache.get_capacity (β := DeviceCacheEntry) s.device_cache b
    have hlen := CLruCache.get_length_le (β := DeviceCacheEntry) s.device_cache b h
    rcases hget : s.device_cache.get b with ⟨fst, snd⟩
    have hcap2 : snd.capacity = s.device_cache.capacity := by
      rw [hget] at hcap
      exact hcap
    have hlen2 : snd.entries.length ≤ s.device_cache.capacity := by
      rw [hget] at hlen
      exact hlen
    have hput : snd.entries.length ≤ snd.capacity := by
      rw [hcap2]
      exact hlen2
    rcases fst with _ | outcome
    · dsimp only
      rcases hauth : auth s.application.name s.device.name b with e | outcome2
      · exact ⟨by rw [hcap2]; exact hlen2, hcap2⟩
      · rcases outcome2 with granted | _
        · dsimp only
          refine ⟨?_, ?_⟩
          · rw [CLruCache.put_capacity]
            exact CLruCache.put_length_le snd b _ hput
          · rw [CLruCache.put_capacity]
            exact hcap2
        · dsimp only
          refine ⟨?_, ?_⟩
          · rw [CLruCache.put_capacity]
            exact CLruCache.put_length_le snd b _ hput
          · rw [CLruCache.put_capacity]
            exact hcap2
    · dsimp only
      rcases houtdev : outcome.device with _ | granted
      · exact ⟨by rw [hcap2]; exact hlen2, hcap2⟩
      · exact ⟨by rw [hcap2]; exact hlen2, hcap2⟩
  · exact ⟨h, rfl⟩

theorem runPublishes_inv (calls : List (Authorizer × String)) (s : Session)
    (h : s.device_cache.entries.length ≤ s.device_cache.capacity) :
    (runPublishes s calls).device_cache.entries.length ≤
      (runPublishes s calls).device_cache.capacity ∧
    (runPublishes s calls).device_cache.capacity =
      s.device_cache.capacity := by
  induction calls generalizing s with
  | nil => exact ⟨h, rfl⟩
  | cons call rest ih =>
    have h1 := eval_device_cache_inv call.1 s call.2 h
    have h2 := ih (evalStep s call) h1.1
    exact ⟨h2.1, h2.2.trans h1.2⟩

theorem lookupReg_none_removeReg (l : List (String × InboxSubscription))
    (k : String) (h : lookupReg l k = none) : removeReg l k = none := by
  induction l with
  | nil => rfl
  | cons p rest ih =>
    obtain ⟨k0, v0⟩ := p
    by_cases hk : k0 = k
    · simp [lookupReg, hk] at h
    · simp only [lookupReg, if_neg hk] at h
      simp [removeReg, hk, ih h]

/-- Claim C3: the authorization cache built by Session construction never
holds more than 128 entries across any sequence of publish resolutions,
and inserting a fresh key into a cache of capacity 128 already holding
128 entries evicts exactly the least-recently-used entry, keeping all
others. -/
theorem device_cache_bounded_lru_eviction (application : Application)
    (device : Device) (calls : List (Authorizer × String))
    (c : CLruCache DeviceCacheEntry) (key : String) (v : DeviceCacheEntry) :
    (runPublishes (Session.new application device)
        calls).device_cache.entries.length ≤ 128 ∧
    (c.capacity = 128 → c.entries.length = 128 →
      cacheLookup c.entries key = none →
      (c.put key v).entries = (key, v) :: c.entries.dropLast) := by
  constructor
  · have h := runPublishes_inv calls (Session.new application device)
      (by simp [Session.new])
    exact h.1.trans (le_of_eq h.2)
  · intro hcap hlen hmiss
    unfold CLruCache.put
    rw [cacheLookup_none_remove c.entries key hmiss]
    rw [if_pos (by rw [hcap, List.length_cons, hlen]; omega)]
    obtain ⟨e, es, hees⟩ : ∃ e es, c.entries = e :: es := by
      cases hE : c.entries with
      | nil => rw [hE] at hlen; simp at hlen
      | cons e es => exact ⟨e, es, rfl⟩
    rw [hees, List.dropLast_cons₂]

set_option maxRecDepth 20000 in
theorem device_cache_bounded_lru_eviction_witness :
    cacheFullW.capacity = 128 ∧ cacheFullW.entries.length = 128 ∧
    cacheLookup cacheFullW.entries "zz" = none ∧
    (cacheFullW.put "zz" { device := none }).entries =
      ("zz", { device := none }) :: cacheFullW.entries.dropLast :=
  ⟨rfl, by decide, by decide,
    (device_cache_bounded_lru_eviction appW devW [] cacheFullW "zz"
        { device := none }).2 rfl (by decide) (by decide)⟩

/-- Claim C1: eval_device classifies the publish topic by its
slash-separated segments: one segment publishes as the authenticated
device with the cache untouched; two segments on a cache miss consult the
authorizer, where a pass caches a grant and returns the granted identity,
any other definitive outcome caches a denial and fails NotAuthorized, and
an authorizer failure fails InternalError with the cache unchanged; any
other segment count fails TopicNameInvalid. -/
theorem eval_device_topic_classification (auth : Authorizer) (s : Session)
    (topic : String) :
    (∀ channel, splitTopic topic = [channel] →
      eval_device auth s topic = (.ok (channel, s.device), s.device_cache)) ∧
    (∀ channel d, splitTopic topic = [channel, d] →
      (s.device_cache.get d).1 = none →
      ((∀ granted,
          auth s.application.name s.device.name d = .ok (.pass granted) →
          eval_device auth s topic =
            (.ok (channel, granted),
              s.device_cache.put d { device := some granted })) ∧
       (auth s.application.name s.device.name d = .ok .other →
          eval_device auth s topic =
            (.error .NotAuthorized,
              s.device_cache.put d { device := none })) ∧
       (∀ e, auth s.application.name s.device.name d = .error e →
          eval_device auth s topic =
            (.error (.InternalError "Failed to authorize device"),
              s.device_cache)))) ∧
    ((splitTopic topic).length ≠ 1 → (splitTopic topic).length ≠ 2 →
      eval_device auth s topic =
        (.error .TopicNameInvalid, s.device_cache)) := by
  refine ⟨?_, ?_, ?_⟩
  · intro channel hsp
    unfold eval_device
    rw [hsp]
  · intro channel d hsp hmiss
    have hg := CLruCache.get_fst_none s.device_cache d hmiss
    refine ⟨?_, ?_, ?_⟩
    · intro granted hauth
      unfold eval_device
      rw [hsp]
      dsimp only
      rw [hg]
      dsimp only
      rw [hauth]
    · intro hauth
      unfold eval_device
      rw [hsp]
      dsimp only
      rw [hg]
      dsimp only
      rw [hauth]
    · intro e hauth
      unfold eval_device
      rw [hsp]
      dsimp only
      rw [hg]
      dsimp only
      rw [hauth]
  · intro h1 h2
    unfold eval_device
    rcases hsp : splitTopic topic with _ | ⟨a, _ | ⟨b, _ | ⟨cc, l⟩⟩⟩
    · rfl
    · rw [hsp] at h1
      simp at h1
    · rw [hsp] at h2
      simp at h2
    · rfl

theorem eval_device_topic_classification_witness :
    splitTopic "chan/d2" = ["chan", "d2"] ∧
    ((Session.new appW devW).device_cache.get "d2").1 = none ∧
    authPassW "a1" "d1" "d2" = .ok (.pass devW2) ∧
    eval_device authPassW (Session.new appW devW) "chan/d2" =
      (.ok ("chan", devW2),
        (Session.new appW devW).device_cache.put "d2"
          { device := some devW2 }) :=
  ⟨rfl, rfl, rfl,
    ((eval_device_topic_classification authPassW (Session.new appW devW)
        "chan/d2").2.1 "chan" "d2" rfl rfl).1 devW2 rfl⟩

/-- Claim C2: once a definitive outcome for a proxied-device name is in
the cache, a lookup that hits returns the cached result: a cached grant
returns the cached identity, a cached denial fails NotAuthorized, and the
result is the same for every authorizer, so the external authorizer is
not consulted. -/
theorem eval_device_cached_outcome_reused (auth : Authorizer) (s : Session)
    (topic channel d : String) (entry : DeviceCacheEntry)
    (c : CLruCache DeviceCacheEntry)
    (hsp : splitTopic topic = [channel, d])
    (hhit : s.device_cache.get d = (some entry, c)) :
    (∀ granted, entry.device = some granted →
      eval_device auth s topic = (.ok (channel, granted), c)) ∧
    (entry.device = none →
      eval_device auth s topic = (.error .NotAuthorized, c)) ∧
    (∀ auth2 : Authorizer,
      eval_device auth2 s topic = eval_device auth s topic) := by
  refine ⟨?_, ?_, ?_⟩
  · intro granted hdev
    unfold eval_device
    rw [hsp]
    dsimp only
    rw [hhit]
    dsimp only
    rw [hdev]
  · intro hdev
    unfold eval_device
    rw [hsp]
    dsimp only
    rw [hhit]
    dsimp only
    rw [hdev]
  · intro auth2
    unfold eval_device
    rw [hsp]
    dsimp only
    rw [hhit]

theorem eval_device_cached_outcome_reused_witness :
    splitTopic "chan/d2" = ["chan", "d2"] ∧
    sessionHitW.device_cache.get "d2" =
      (some { device := some devW2 }, sessionHitW.device_cache) ∧
    eval_device authErrW sessionHitW "chan/d2" =
      (.ok ("chan", devW2), sessionHitW.device_cache) :=
  ⟨rfl, rfl,
    (eval_device_cached_outcome_reused authErrW sessionHitW "chan/d2"
        "chan" "d2" { device := some devW2 } sessionHitW.device_cache
        rfl rfl).1 devW2 rfl⟩

/-- Claim C10: publish shapes depend only on the segment count with empty
segments accepted: the empty topic is one empty segment and publishes as
self with the empty channel, while topics with a trailing or leading
slash are two segments and take the proxied path, consulting the cache
and the authorizer with the empty string as proxied-device name or
channel. -/
theorem eval_device_empty_segment_topics (auth : Authorizer) (s : Session) :
    splitTopic "" = [""] ∧
    splitTopic "chan/" = ["chan", ""] ∧
    splitTopic "/dev" = ["", "dev"] ∧
    eval_device auth s "" = (.ok ("", s.device), s.device_cache) ∧
    ((s.device_cache.get "").1 = none →
      ((∀ granted,
          auth s.application.name s.device.name "" = .ok (.pass granted) →
          eval_device auth s "chan/" =
            (.ok ("chan", granted),
              s.device_cache.put "" { device := some granted })) ∧
       (auth s.application.name s.device.name "" = .ok .other →
          eval_device auth s "chan/" =
            (.error .NotAuthorized,
              s.device_cache.put "" { device := none })))) ∧
    ((s.device_cache.get "dev").1 = none →
      auth s.application.name s.device.name "dev" = .ok .other →
      eval_device auth s "/dev" =
        (.error .NotAuthorized,
          s.device_cache.put "dev" { device := none })) := by
  refine ⟨rfl, rfl, rfl, rfl, ?_, ?_⟩
  · intro hmiss
    have hg := CLruCache.get_fst_none s.device_cache "" hmiss
    refine ⟨?_, ?_⟩
    · intro granted hauth
      unfold eval_device
      rw [show splitTopic "chan/" = ["chan", ""] from rfl]
      dsimp only
      rw [hg]
      dsimp only
      rw [hauth]
    · intro hauth
      unfold eval_device
      rw [show splitTopic "chan/" = ["chan", ""] from rfl]
      dsimp only
      rw [hg]
      dsimp only
      rw [hauth]
  · intro hmiss hauth
    have hg := CLruCache.get_fst_none s.device_cache "dev" hmiss
    unfold eval_device
    rw [show splitTopic "/dev" = ["", "dev"] from rfl]
    dsimp only
    rw [hg]
    dsimp only
    rw [hauth]

theorem eval_device_empty_segment_topics_witness :
    ((Session.new appW devW).device_cache.get "").1 = none ∧
    authDenyW "a1" "d1" "" = .ok .other ∧
    eval_device authDenyW (Session.new appW devW) "chan/" =
      (.error .NotAuthorized,
        (Session.new appW devW).device_cache.put "" { device := none }) :=
  ⟨rfl, rfl,
    ((eval_device_empty_segment_topics authDenyW
        (Session.new appW devW)).2.2.2.2.1 rfl).2 rfl⟩

theorem closedRelaysStopped (l : List (String × InboxSubscription)) :
    ((l.map (fun p => p.2.close)).all (fun r => !r.running)) = true := by
  induction l with
  | nil => rfl
  | cons p rest ih => exact ih

/-- Claim C4: when the acting device resolves, publish forwards to the
downstream sender exactly the resolved channel, the application, the
acting device name as device_id, the authenticated device name as
sender_id, the declared content type and the raw payload, and maps the
bus result one to one: Accepted to success, Rejected to UnspecifiedError,
QueueFull to QuotaExceeded, and a transport error to InternalError
carrying the error text. -/
theorem publish_forwards_and_maps_outcomes (sender : SenderFn)
    (auth : Authorizer) (s : Session) (p : PublishMsg) (channel : String)
    (dev : Device) (cache : CLruCache DeviceCacheEntry)
    (h : eval_device auth s p.topic = (.ok (channel, dev), cache)) :
    (sender (senderArgs s p channel dev) p.payload = .ok .Accepted →
      Session.publish sender auth s p = (.ok (), cache)) ∧
    (sender (senderArgs s p channel dev) p.payload = .ok .Rejected →
      Session.publish sender auth s p = (.error .UnspecifiedError, cache)) ∧
    (sender (senderArgs s p channel dev) p.payload = .ok .QueueFull →
      Session.publish sender auth s p = (.error .QuotaExceeded, cache)) ∧
    (∀ e, sender (senderArgs s p channel dev) p.payload = .error e →
      Session.publish sender auth s p =
        (.error (.InternalError e), cache)) := by
  refine ⟨?_, ?_, ?_, ?_⟩
  · intro hs
    unfold senderArgs at hs
    unfold Session.publish
    rw [h]
    dsimp only
    rw [hs]
  · intro hs
    unfold senderArgs at hs
    unfold Session.publish
    rw [h]
    dsimp only
    rw [hs]
  · intro hs
    unfold senderArgs at hs
    unfold Session.publish
    rw [h]
    dsimp only
    rw [hs]
  · intro e hs
    unfold senderArgs at hs
    unfold Session.publish
    rw [h]
    dsimp only
    rw [hs]

theorem publish_forwards_and_maps_outcomes_witness :
    eval_device authDenyW sessionW publishW.topic =
      (.ok ("t", devW), sessionW.device_cache) ∧
    senderAcceptW (senderArgs sessionW publishW "t" devW) publishW.payload =
      .ok .Accepted ∧
    Session.publish senderAcceptW authDenyW sessionW publishW =
      (.ok (), sessionW.device_cache) :=
  ⟨rfl, rfl,
    (publish_forwards_and_maps_outcomes senderAcceptW authDenyW sessionW
        publishW "t" devW sessionW.device_cache rfl).1 rfl⟩

/-- Claim C5: each subscribe topic is classified by its slash-separated
segments: the two wildcard shapes register a non-forced wildcard-filter
subscription, the empty-third-segment shape registers a non-forced
device-scoped subscription, any other third segment registers a forced
proxied-device subscription for it, each confirmed at the lowest
quality-of-service level; registering on a vacant key stores exactly the
given filter and force flag; every other topic shape fails with the
unspecified-error reason and leaves the session unchanged. -/
theorem subscribe_topic_classification (s : Session) (topic : String) :
    ((splitTopic topic = ["command", "inbox", "#"] ∨
      splitTopic topic = ["command", "inbox", "+", "#"]) →
      subscribeStep s topic =
        (.confirm .AtMostOnce,
          subscribe_inbox s topic
            (.wildcard s.id.app_id s.id.device_id) false)) ∧
    (splitTopic topic = ["command", "inbox", "", "#"] →
      subscribeStep s topic =
        (.confirm .AtMostOnce,
          subscribe_inbox s topic
            (.device s.id.app_id s.id.device_id) false)) ∧
    (∀ dev, dev ≠ "+" → dev ≠ "" →
      splitTopic topic = ["command", "inbox", dev, "#"] →
      subscribeStep s topic =
        (.confirm .AtMostOnce,
          subscribe_inbox s topic
            (.proxied_device s.id.app_id s.id.device_id dev) true)) ∧
    (splitTopic topic ≠ ["command", "inbox", "#"] →
      (∀ dev, splitTopic topic ≠ ["command", "inbox", dev, "#"]) →
      subscribeStep s topic = (.fail .UnspecifiedError, s)) ∧
    (lookupReg s.inbox_reader topic = none →
      ∀ filter force,
        lookupReg (subscribe_inbox s topic filter force).inbox_reader
          topic = some (InboxSubscription.new filter force)) := by
  refine ⟨?_, ?_, ?_, ?_, ?_⟩
  · rintro (hsp | hsp) <;> (unfold subscribeStep; rw [hsp]) <;>
      (split <;> simp_all)
  · intro hsp
    unfold subscribeStep
    rw [hsp]
    split <;> simp_all
  · intro dev h1 h2 hsp
    unfold subscribeStep
    rw [hsp]
    split <;> simp_all
  · intro h3 h4
    unfold subscribeStep
    split <;> simp_all
  · intro hnone filter force
    unfold subscribe_inbox
    rw [hnone]
    simp [lookupReg]

theorem subscribe_topic_classification_witness :
    splitTopic "command/inbox/gw/#" = ["command", "inbox", "gw", "#"] ∧
    subscribeStep sessionW "command/inbox/gw/#" =
      (.confirm .AtMostOnce,
        subscribe_inbox sessionW "command/inbox/gw/#"
          (.proxied_device "a1" "d1" "gw") true) :=
  ⟨rfl,
    (subscribe_topic_classification sessionW "command/inbox/gw/#").2.2.1
      "gw" (by decide) (by decide) rfl⟩

/-- Claim C6: a subscribe batch carrying a subscription identifier has
every entry rejected with the identifiers-not-supported reason and leaves
the session, and hence the registry, unchanged regardless of the
requested topics. -/
theorem subscribe_identifier_batch_rejected (s : Session)
    (batch : SubscribeBatch) (h : batch.id.isSome = true) :
    Session.subscribe s batch =
      (batch.topics.map
        (fun _ => .fail .SubscriptionIdentifiersNotSupported), s) := by
  unfold Session.subscribe
  rw [if_pos h]

theorem subscribe_identifier_batch_rejected_witness :
    batchW.id.isSome = true ∧
    Session.subscribe sessionW batchW =
      ([.fail .SubscriptionIdentifiersNotSupported,
        .fail .SubscriptionIdentifiersNotSupported], sessionW) :=
  ⟨rfl, subscribe_identifier_batch_rejected sessionW batchW rfl⟩

/-- Claim C7: subscribing twice with an identical topic-filter string
keeps exactly one live relay: a subscribe_inbox call for a key already
present leaves the session unchanged, and a second subscribe_inbox with
the same key after any first one is always a no-op. -/
theorem subscribe_inbox_idempotent (s : Session) (key : String)
    (f1 f2 : CommandFilter) (b1 b2 : Bool) :
    (∀ sub, lookupReg s.inbox_reader key = some sub →
      subscribe_inbox s key f1 b1 = s) ∧
    subscribe_inbox (subscribe_inbox s key f1 b1) key f2 b2 =
      subscribe_inbox s key f1 b1 := by
  constructor
  · intro sub h
    unfold subscribe_inbox
    rw [h]
  · cases h : lookupReg s.inbox_reader key with
    | some sub =>
      have hinner : subscribe_inbox s key f1 b1 = s := by
        unfold subscribe_inbox
        rw [h]
      rw [hinner]
      unfold subscribe_inbox
      rw [h]
    | none =>
      have hinner : subscribe_inbox s key f1 b1 =
          { s with inbox_reader :=
              (key, InboxSubscription.new f1 b1) :: s.inbox_reader } := by
        unfold subscribe_inbox
        rw [h]
      rw [hinner]
      unfold subscribe_inbox
      simp [lookupReg]

theorem subscribe_inbox_idempotent_witness :
    lookupReg sessionRegW.inbox_reader "command/inbox/#" = some subW ∧
    subscribe_inbox sessionRegW "command/inbox/#"
      (.wildcard "a1" "d1") false = sessionRegW :=
  ⟨rfl,
    (subscribe_inbox_idempotent sessionRegW "command/inbox/#"
        (.wildcard "a1" "d1") (.wildcard "a1" "d1") false false).1
      subW rfl⟩

/-- Claim C8: for every topic of an unsubscribe batch, a present registry
entry is removed, its relay shutdown is awaited (the returned relay is
stopped) and the entry acknowledged with success, while a topic with no
entry is acknowledged with the no-subscription-existed reason and leaves
the session unchanged. -/
theorem unsubscribe_removes_or_reports (s : Session) (topic : String) :
    (∀ sub rest, removeReg s.inbox_reader topic = some (sub, rest) →
      unsubscribeStep s topic =
        (.success, some sub.close, { s with inbox_reader := rest }) ∧
      (sub.close).running = false) ∧
    (lookupReg s.inbox_reader topic = none →
      unsubscribeStep s topic =
        (.fail .NoSubscriptionExisted, none, s)) := by
  constructor
  · intro sub rest h
    constructor
    · unfold unsubscribeStep
      rw [h]
    · rfl
  · intro h
    unfold unsubscribeStep
    rw [lookupReg_none_removeReg s.inbox_reader topic h]

theorem unsubscribe_removes_or_reports_witness :
    removeReg sessionRegW.inbox_reader "command/inbox/#" =
      some (subW, []) ∧
    unsubscribeStep sessionRegW "command/inbox/#" =
      (.success, some subW.close,
        { sessionRegW with inbox_reader := [] }) :=
  ⟨rfl,
    ((unsubscribe_removes_or_reports sessionRegW "command/inbox/#").1
        subW [] rfl).1⟩

/-- Claim C9: closing a session drains the whole inbox registry and
closes every relay: afterwards the registry is empty, one closed relay is
returned per former registry entry, and every returned relay is
stopped. -/
theorem closed_drains_all_relays (s : Session) :
    ((Session.closed s).2).inbox_reader = [] ∧
    (Session.closed s).1.length = s.inbox_reader.length ∧
    ((Session.closed s).1.all (fun r => !r.running)) = true := by
  refine ⟨rfl, by simp [Session.closed], ?_⟩
  exact closedRelaysStopped s.inbox_reader

end DrogueSession
